import Mathlib

set_option linter.unusedVariables false
set_option linter.unreachableTactic false
set_option linter.unusedTactic false
set_option linter.unnecessarySeqFocus false

/-!
# Verification of the SAGE3280 clinical classification and care-gap engine

Shallow embedding of the core services of the SAGE3280 backend
(`app/services/classifier.py`, `app/services/alert_generator.py`,
`app/services/risk_calculator.py`), together with theorems settling the
frozen specification claims.

Modelling conventions:
* Python `date` values are represented by their proleptic Gregorian ordinal
  (an `Int`), exactly as `date.toordinal` computes it; `date + timedelta(days=k)`
  is ordinal addition, and `(d1 - d2).days` is ordinal subtraction.
  `date.today()` is passed explicitly as a `today : Int` parameter.
* Python `Optional` values become `Option`; Python truthiness of an `int`
  (`if not age`) is the test `a = 0` on the wrapped value.
* Python `float` arithmetic in the risk calculators is modelled with exact
  rationals (`ℚ`); all constants involved are decimal literals, and `round(x, 1)`
  is modelled as round-half-even at one decimal digit, matching Python's
  semantics on the exactly-representable values that arise here.
* Display-only fields (the free-text `description`, `reason`, `criteria` and
  `interpretation` strings and the recommendation lists) are omitted from the
  records; every field that any claim mentions is kept verbatim.
-/

namespace SAGE3280

/-! ## Dates: proleptic Gregorian ordinals (as in Python's `datetime.date`) -/

/-- Leap-year test of the Gregorian calendar. -/
def isLeap (y : Nat) : Bool :=
  y % 4 = 0 && (y % 100 ≠ 0 || y % 400 = 0)

/-- Days in the months strictly before month `m` of year `y` (m in 1..12). -/
def daysBeforeMonth (y m : Nat) : Nat :=
  (match m with
   | 1 => 0 | 2 => 31 | 3 => 59 | 4 => 90 | 5 => 120 | 6 => 151
   | 7 => 181 | 8 => 212 | 9 => 243 | 10 => 273 | 11 => 304 | _ => 334)
  + (if m > 2 && isLeap y then 1 else 0)

/-- Proleptic Gregorian ordinal of the date `y-m-d`, as computed by
Python's `date.toordinal` (January 1 of year 1 is ordinal 1). -/
def dateOrdinal (y m d : Nat) : Int :=
  ((y - 1) * 365 + (y - 1) / 4 - (y - 1) / 100 + (y - 1) / 400
    + daysBeforeMonth y m + d : Nat)

/-! ## Enumerations (string values exactly as in `app/models`) -/

/-- `classify_age_group` from `PatientClassifier`: band mapping of an
optional integer age to the `AgeGroupEnum` string value. -/
def classify_age_group (age : Option Int) : Option String :=
  match age with
  | none => none
  | some a =>
    if 0 ≤ a ∧ a ≤ 5 then some "primera_infancia"
    else if 6 ≤ a ∧ a ≤ 11 then some "infancia"
    else if 12 ≤ a ∧ a ≤ 17 then some "adolescencia"
    else if 18 ≤ a ∧ a ≤ 28 then some "juventud"
    else if 29 ≤ a ∧ a ≤ 59 then some "adultez"
    else if a ≥ 60 then some "vejez"
    else none

/-- `classify_attention_type` from `PatientClassifier`: any of the seven
chronic-condition flags yields `grupo_b`, otherwise `grupo_a`.  The
`has_cardiovascular_risk` argument is accepted (as in the source) but not
consulted. -/
def classify_attention_type
    (is_hypertensive is_diabetic has_hypothyroidism has_copd has_asthma
     has_ckd has_cardiovascular_disease has_cardiovascular_risk : Bool) : String :=
  if is_hypertensive || is_diabetic || has_hypothyroidism || has_copd
      || has_asthma || has_ckd || has_cardiovascular_disease then
    "grupo_b"
  else
    "grupo_a"

/-! ## AlertGenerator (`app/services/alert_generator.py`)

`generate_alerts` is embedded block by block: each commented section of the
Python function body becomes one definition below, and `generate_alerts`
concatenates them in source order.  The free-text `reason`/`criteria` fields
are omitted; `alert_type`, `alert_name`, `priority` and the computed
`due_date` are kept. -/

/-- One alert dictionary produced by `AlertGenerator.generate_alerts`
(display-only text fields omitted). -/
structure Alert where
  alert_type : String
  alert_name : String
  priority : String
  due_date : Int
deriving Repr, DecidableEq

/-- The nested helper `calculate_due_date` of `generate_alerts`: due date
from the last exam of this type plus the interval, or (with no history)
today + 30 days if urgent else today + 90 days. -/
def calculate_due_date (today : Int) (last_exam_dates : String → Option Int)
    (exam_type : String) (interval_days : Int) (is_urgent : Bool := false) : Int :=
  match last_exam_dates exam_type with
  | some last_date => last_date + interval_days
  | none => if is_urgent then today + 30 else today + 90

/-- Block `POBLACIÓN GENERAL (ADULTOS)` (`age >= 18`): blood pressure, BMI
and fasting glucose, the latter annual with any of the three risk flags
and triennial otherwise. -/
def alerts_general_adult (today : Int) (led : String → Option Int) (a : Int)
    (is_hypertensive is_diabetic has_cardiovascular_risk : Bool) : List Alert :=
  if a ≥ 18 then
    [⟨"toma_presion", "Toma de Presión Arterial", "media",
      calculate_due_date today led "toma_presion" 365⟩,
     ⟨"medicion_imc", "Medición de IMC", "baja",
      calculate_due_date today led "medicion_imc" 365⟩,
     ⟨"glicemia", "Glicemia en Ayunas", "media",
      calculate_due_date today led "glicemia"
        (if is_diabetic || is_hypertensive || has_cardiovascular_risk then 365 else 1095)⟩]
  else []

/-- Block `NIÑOS Y ADOLESCENTES`: weight/height (`age <= 17`), developmental
screening and vaccination schedule (`age < 5`), oral health (`6 <= age <= 17`). -/
def alerts_children (today : Int) (led : String → Option Int) (a : Int) : List Alert :=
  (if a ≤ 17 then
    [⟨"medicion_peso_talla", "Medición de Peso y Talla",
      if a < 5 then "alta" else "media",
      calculate_due_date today led "medicion_peso_talla" (if a < 5 then 180 else 365)⟩]
   else [])
  ++ (if a < 5 then
    [⟨"tamizaje_desarrollo", "Tamizaje de Desarrollo Psicomotor", "alta",
      calculate_due_date today led "tamizaje_desarrollo" (if a < 2 then 60 else 180)⟩,
     ⟨"esquema_vacunacion_completo", "Esquema de Vacunación",
      if a < 1 then "urgente" else "alta",
      calculate_due_date today led "esquema_vacunacion" (if a < 1 then 30 else 180)⟩]
   else [])
  ++ (if 6 ≤ a ∧ a ≤ 17 then
    [⟨"valoracion_odontologica", "Valoración Odontológica", "media",
      calculate_due_date today led "valoracion_odontologica" 365⟩]
   else [])

/-- Block `Mujeres` (`sex == 'F'`): cytology (25–65, urgent policy), HPV
test (30–65), mammography (50–69, urgent policy). -/
def alerts_women (today : Int) (led : String → Option Int)
    (sex : Option String) (a : Int) : List Alert :=
  if sex = some "F" then
    (if 25 ≤ a ∧ a ≤ 65 then
      [⟨"citologia", "Citología Cervicouterina", "alta",
        calculate_due_date today led "citologia" 365 true⟩]
     else [])
    ++ (if 30 ≤ a ∧ a ≤ 65 then
      [⟨"vph", "Test de VPH", "media",
        calculate_due_date today led "vph" 1095⟩]
     else [])
    ++ (if 50 ≤ a ∧ a ≤ 69 then
      [⟨"mamografia", "Mamografía", "alta",
        calculate_due_date today led "mamografia" 730 true⟩]
     else [])
  else []

/-- Block `Hombres` (`sex == 'M'`): PSA for `age >= 50`. -/
def alerts_men (today : Int) (led : String → Option Int)
    (sex : Option String) (a : Int) : List Alert :=
  if sex = some "M" then
    (if a ≥ 50 then
      [⟨"psa", "Antígeno Prostático Específico (PSA)", "media",
        calculate_due_date today led "psa" 365⟩]
     else [])
  else []

/-- Block `TAMIZAJE CÁNCER COLORRECTAL` (`age >= 50`): fecal occult blood
annually, colonoscopy gated by the literal `age % 10 == 0` condition. -/
def alerts_colorectal (today : Int) (led : String → Option Int) (a : Int) : List Alert :=
  if a ≥ 50 then
    [⟨"sangre_oculta_heces", "Sangre Oculta en Heces", "media",
      calculate_due_date today led "sangre_oculta_heces" 365⟩]
    ++ (if a ≥ 50 ∧ a % 10 = 0 then
      [⟨"colonoscopia", "Colonoscopia", "alta",
        calculate_due_date today led "colonoscopia" 3650 true⟩]
     else [])
  else []

/-- Block `EVALUACIONES SENSORIALES`: visual acuity for ages 6–11 or 60+,
hearing acuity for 60+. -/
def alerts_sensory (today : Int) (led : String → Option Int) (a : Int) : List Alert :=
  (if (6 ≤ a ∧ a ≤ 11) ∨ a ≥ 60 then
    [⟨"agudeza_visual", "Evaluación de Agudeza Visual", "media",
      calculate_due_date today led "agudeza_visual" 730⟩]
   else [])
  ++ (if a ≥ 60 then
    [⟨"agudeza_auditiva", "Evaluación de Agudeza Auditiva", "media",
      calculate_due_date today led "agudeza_auditiva" 730⟩]
   else [])

/-- Block `VACUNACIÓN ADULTOS`: influenza and pneumococcus for 60+ (urgent
policy), tetanus booster for 18+. -/
def alerts_adult_vaccination (today : Int) (led : String → Option Int) (a : Int) :
    List Alert :=
  (if a ≥ 60 then
    [⟨"vacuna_influenza", "Vacuna Influenza", "alta",
      calculate_due_date today led "vacuna_influenza" 365 true⟩,
     ⟨"vacuna_neumococo", "Vacuna Neumococo", "alta",
      calculate_due_date today led "vacuna_neumococo" 1825 true⟩]
   else [])
  ++ (if a ≥ 18 then
    [⟨"vacuna_tetanos", "Refuerzo Tétanos", "baja",
      calculate_due_date today led "vacuna_tetanos" 3650⟩]
   else [])

/-- Block `RIESGO CARDIOVASCULAR`: lipid profile with risk-dependent
interval/priority, and ECG for high risk, established disease or 50+. -/
def alerts_cv_risk (today : Int) (led : String → Option Int) (a : Int)
    (has_cardiovascular_risk has_cardiovascular_disease : Bool)
    (cardiovascular_risk_level : Option String) : List Alert :=
  if has_cardiovascular_risk || has_cardiovascular_disease || a ≥ 40 then
    (let lvlHigh := cardiovascular_risk_level = some "alto"
        ∨ cardiovascular_risk_level = some "muy_alto"
     let interval : Int :=
       if lvlHigh ∨ has_cardiovascular_disease = true then 365
       else if has_cardiovascular_risk then 730 else 1095
     let priority :=
       if lvlHigh ∨ has_cardiovascular_disease = true then "alta"
       else if has_cardiovascular_risk then "media" else "media"
     [⟨"perfil_lipidico", "Perfil Lipídico", priority,
       calculate_due_date today led "perfil_lipidico" interval has_cardiovascular_risk⟩]
     ++ (if (has_cardiovascular_risk = true ∧ lvlHigh)
            ∨ has_cardiovascular_disease = true ∨ a ≥ 50 then
       [⟨"ekg", "Electrocardiograma",
         if has_cardiovascular_disease then "alta" else "media",
         calculate_due_date today led "ekg" 365 has_cardiovascular_disease⟩]
      else []))
  else []

/-- Block `EMBARAZO` (`is_pregnant and sex == 'F'`): obstetric ultrasound
(interval 90 days, urgent priority and urgent policy) and haemogram. -/
def alerts_pregnancy (today : Int) (led : String → Option Int)
    (sex : Option String) (is_pregnant : Bool) : List Alert :=
  if is_pregnant = true ∧ sex = some "F" then
    [⟨"ecografia_obstetrica", "Ecografía Obstétrica", "urgente",
      calculate_due_date today led "ecografia_obstetrica" 90 true⟩,
     ⟨"hemograma", "Hemograma Completo", "alta",
      calculate_due_date today led "hemograma" 90 true⟩]
  else []

/-- Block `HIPERTENSIÓN ARTERIAL`: creatinine, potassium, microalbuminuria
(6-month intervals) and annual urinalysis. -/
def alerts_hypertension (today : Int) (led : String → Option Int)
    (is_hypertensive : Bool) : List Alert :=
  if is_hypertensive then
    [⟨"creatinina", "Creatinina Sérica", "alta",
      calculate_due_date today led "creatinina" 180 true⟩,
     ⟨"potasio", "Potasio Sérico", "media",
      calculate_due_date today led "potasio" 180⟩,
     ⟨"microalbuminuria", "Microalbuminuria", "alta",
      calculate_due_date today led "microalbuminuria" 180 true⟩,
     ⟨"parcial_orina", "Parcial de Orina", "media",
      calculate_due_date today led "parcial_orina" 365⟩]
  else []

/-- Block `DIABETES MELLITUS`: HbA1c, eye exam, diabetic-foot exam, and —
only if not already added via the hypertension block — creatinine and
microalbuminuria. -/
def alerts_diabetes (today : Int) (led : String → Option Int)
    (is_hypertensive is_diabetic : Bool) : List Alert :=
  if is_diabetic then
    [⟨"hba1c", "Hemoglobina Glicosilada (HbA1c)", "urgente",
      calculate_due_date today led "hba1c" 90 true⟩,
     ⟨"fondo_ojo", "Fondo de Ojo", "alta",
      calculate_due_date today led "fondo_ojo" 365 true⟩,
     ⟨"valoracion_pie_diabetico", "Valoración de Pie Diabético", "alta",
      calculate_due_date today led "valoracion_pie_diabetico" 90 true⟩]
    ++ (if ¬ is_hypertensive = true then
      [⟨"creatinina", "Creatinina Sérica", "alta",
        calculate_due_date today led "creatinina" 180 true⟩,
       ⟨"microalbuminuria", "Microalbuminuria", "alta",
        calculate_due_date today led "microalbuminuria" 180 true⟩]
     else [])
  else []

/-- Block `HIPOTIROIDISMO`: TSH (4 months) and free T4 (6 months). -/
def alerts_hypothyroidism (today : Int) (led : String → Option Int)
    (has_hypothyroidism : Bool) : List Alert :=
  if has_hypothyroidism then
    [⟨"tsh", "TSH (Hormona Estimulante de Tiroides)", "media",
      calculate_due_date today led "tsh" 120⟩,
     ⟨"t4_libre", "T4 Libre", "media",
      calculate_due_date today led "t4_libre" 180⟩]
  else []

/-- Block `EPOC`: spirometry (urgent policy), chest X-ray, arterial blood
gases (urgent policy). -/
def alerts_copd (today : Int) (led : String → Option Int) (has_copd : Bool) :
    List Alert :=
  if has_copd then
    [⟨"espirometria", "Espirometría", "alta",
      calculate_due_date today led "espirometria" 270 true⟩,
     ⟨"rayos_x_torax", "Rayos X de Tórax", "media",
      calculate_due_date today led "rayos_x_torax" 365⟩,
     ⟨"gases_arteriales", "Gases Arteriales", "alta",
      calculate_due_date today led "gases_arteriales" 180 true⟩]
  else []

/-- Block `ASMA`: spirometry (standard policy). -/
def alerts_asthma (today : Int) (led : String → Option Int) (has_asthma : Bool) :
    List Alert :=
  if has_asthma then
    [⟨"espirometria", "Espirometría", "media",
      calculate_due_date today led "espirometria" 270⟩]
  else []

/-- Block `IRC`: creatinine clearance, BUN and haemogram, each at 120 days
with urgent policy. -/
def alerts_ckd (today : Int) (led : String → Option Int) (has_ckd : Bool) :
    List Alert :=
  if has_ckd then
    [⟨"clearance_creatinina", "Clearance de Creatinina (TFG)", "urgente",
      calculate_due_date today led "clearance_creatinina" 120 true⟩,
     ⟨"bun", "BUN (Nitrógeno Ureico en Sangre)", "alta",
      calculate_due_date today led "bun" 120 true⟩,
     ⟨"hemograma", "Hemograma Completo", "alta",
      calculate_due_date today led "hemograma" 120 true⟩]
  else []

/-- Block `ENFERMEDAD CARDIOVASCULAR ESTABLECIDA`: annual echocardiogram
(urgent policy). -/
def alerts_cvd (today : Int) (led : String → Option Int)
    (has_cardiovascular_disease : Bool) : List Alert :=
  if has_cardiovascular_disease then
    [⟨"ecocardiograma", "Ecocardiograma", "alta",
      calculate_due_date today led "ecocardiograma" 365 true⟩]
  else []

/-- `AlertGenerator.generate_alerts`: the Python guard `if not age` returns
the empty list for a missing age and for the integer 0 (Python falsiness);
otherwise the alert blocks above are emitted in source order. -/
def generate_alerts (today : Int) (age : Option Int) (sex : Option String)
    (is_pregnant is_hypertensive is_diabetic has_hypothyroidism has_copd
     has_asthma has_ckd has_cardiovascular_disease has_cardiovascular_risk : Bool)
    (cardiovascular_risk_level : Option String)
    (led : String → Option Int) : List Alert :=
  match age with
  | none => []
  | some a =>
    if a = 0 then []
    else
      alerts_general_adult today led a is_hypertensive is_diabetic has_cardiovascular_risk
      ++ alerts_children today led a
      ++ alerts_women today led sex a
      ++ alerts_men today led sex a
      ++ alerts_colorectal today led a
      ++ alerts_sensory today led a
      ++ alerts_adult_vaccination today led a
      ++ alerts_cv_risk today led a has_cardiovascular_risk has_cardiovascular_disease
           cardiovascular_risk_level
      ++ alerts_pregnancy today led sex is_pregnant
      ++ alerts_hypertension today led is_hypertensive
      ++ alerts_diabetes today led is_hypertensive is_diabetic
      ++ alerts_hypothyroidism today led has_hypothyroidism
      ++ alerts_copd today led has_copd
      ++ alerts_asthma today led has_asthma
      ++ alerts_ckd today led has_ckd
      ++ alerts_cvd today led has_cardiovascular_disease

/-! ## PatientClassifier.determine_required_controls (`app/services/classifier.py`)

Embedded block by block like `generate_alerts`: one definition per age band
and per chronic-condition block, concatenated in source order.  The
free-text `description` field is omitted. -/

/-- One control dictionary produced by
`PatientClassifier.determine_required_controls` (description omitted). -/
structure Control where
  control_type : String
  control_name : String
  is_urgent : Bool
  recommended_frequency_days : Int
deriving Repr, DecidableEq

/-- The per-block expression
`days_since_control > frequency_days if last_control_date else True`. -/
def is_overdue (days_since_control : Int) (last_control_date : Option Int)
    (frequency_days : Int) : Bool :=
  match last_control_date with
  | some _ => days_since_control > frequency_days
  | none => true

/-- Band `PRIMERA INFANCIA (0-5 años)`: frequency 60 below age 2, else 180;
four controls, the vaccination one with its own 30/180 frequency. -/
def controls_primera_infancia (a : Int) (dsc : Int) (last : Option Int) : List Control :=
  let frequency_days : Int := if a < 2 then 60 else 180
  let overdue := is_overdue dsc last frequency_days
  [⟨"control_primera_infancia", "Control de Primera Infancia", overdue, frequency_days⟩,
   ⟨"control_crecimiento_desarrollo", "Valoración de Crecimiento y Desarrollo",
    overdue, frequency_days⟩,
   ⟨"vacunacion", "Esquema de Vacunación", overdue, if a < 1 then 30 else 180⟩,
   ⟨"valoracion_nutricional", "Valoración Nutricional", overdue, frequency_days⟩]

/-- Band `INFANCIA (6-11 años)`: annual frequency; the mental-health
screening control is never urgent. -/
def controls_infancia (dsc : Int) (last : Option Int) : List Control :=
  let frequency_days : Int := 365
  let overdue := is_overdue dsc last frequency_days
  [⟨"control_infancia", "Control de Infancia", overdue, frequency_days⟩,
   ⟨"salud_oral", "Control de Salud Oral", overdue, frequency_days⟩,
   ⟨"valoracion_nutricional", "Valoración Nutricional", overdue, frequency_days⟩,
   ⟨"salud_mental", "Tamizaje de Salud Mental", false, frequency_days⟩]

/-- Band `ADOLESCENCIA (12-17 años)`: annual frequency; three of the four
controls are never urgent. -/
def controls_adolescencia (dsc : Int) (last : Option Int) : List Control :=
  let frequency_days : Int := 365
  let overdue := is_overdue dsc last frequency_days
  [⟨"control_adolescencia", "Control de Adolescencia", overdue, frequency_days⟩,
   ⟨"salud_sexual_reproductiva", "Salud Sexual y Reproductiva", false, frequency_days⟩,
   ⟨"deteccion_its", "Detección de ITS", false, 365⟩,
   ⟨"salud_mental", "Salud Mental Adolescente", false, frequency_days⟩]

/-- Band `JUVENTUD (18-28 años)`: biennial; plus a never-urgent
family-planning control for women. -/
def controls_juventud (sex : Option String) (dsc : Int) (last : Option Int) :
    List Control :=
  let frequency_days : Int := 730
  let overdue := is_overdue dsc last frequency_days
  [⟨"control_juventud", "Control de Juventud", overdue, frequency_days⟩]
  ++ (if sex = some "F" then
    [⟨"planificacion_familiar", "Planificación Familiar", false, 365⟩]
   else [])

/-- Band `ADULTEZ (29-59 años)`: annual with risk factors, else biennial. -/
def controls_adultez (is_hypertensive is_diabetic has_cardiovascular_risk : Bool)
    (dsc : Int) (last : Option Int) : List Control :=
  let frequency_days : Int :=
    if is_hypertensive || is_diabetic || has_cardiovascular_risk then 365 else 730
  let overdue := is_overdue dsc last frequency_days
  [⟨"control_adultez", "Control de Adultez", overdue, frequency_days⟩]

/-- Band `VEJEZ (60+ años)`: annual; the cognitive-evaluation control
(type `salud_mental`) is never urgent. -/
def controls_vejez (dsc : Int) (last : Option Int) : List Control :=
  let frequency_days : Int := 365
  let overdue := is_overdue dsc last frequency_days
  [⟨"control_vejez", "Control de Vejez", overdue, frequency_days⟩,
   ⟨"valoracion_geriatrica", "Valoración Geriátrica Integral", overdue, frequency_days⟩,
   ⟨"evaluacion_funcionalidad", "Evaluación de Funcionalidad", overdue, frequency_days⟩,
   ⟨"salud_mental", "Evaluación Cognitiva", false, frequency_days⟩]

/-- The `if/elif` dispatch on the age-group value in
`determine_required_controls` (Grupo A section). -/
def controls_age_band (g : String) (a : Int) (sex : Option String)
    (is_hypertensive is_diabetic has_cardiovascular_risk : Bool)
    (dsc : Int) (last : Option Int) : List Control :=
  if g = "primera_infancia" then controls_primera_infancia a dsc last
  else if g = "infancia" then controls_infancia dsc last
  else if g = "adolescencia" then controls_adolescencia dsc last
  else if g = "juventud" then controls_juventud sex dsc last
  else if g = "adultez" then
    controls_adultez is_hypertensive is_diabetic has_cardiovascular_risk dsc last
  else if g = "vejez" then controls_vejez dsc last
  else []

/-- Block `CONTROL PRENATAL`: for a pregnant woman, frequency 30 and
`is_urgent` hardcoded `True` (the computed overdue flag is unused). -/
def controls_prenatal (sex : Option String) (is_pregnant : Bool) : List Control :=
  if is_pregnant = true ∧ sex = some "F" then
    [⟨"control_prenatal", "Control Prenatal", true, 30⟩]
  else []

/-- Block `HIPERTENSIÓN ARTERIAL`: monthly control. -/
def controls_hypertension (is_hypertensive : Bool) (dsc : Int) (last : Option Int) :
    List Control :=
  if is_hypertensive then
    [⟨"control_hipertenso", "Control de Hipertensión Arterial",
      is_overdue dsc last 30, 30⟩]
  else []

/-- Block `DIABETES MELLITUS`: monthly control. -/
def controls_diabetes (is_diabetic : Bool) (dsc : Int) (last : Option Int) :
    List Control :=
  if is_diabetic then
    [⟨"control_diabetico", "Control de Diabetes Mellitus",
      is_overdue dsc last 30, 30⟩]
  else []

/-- Block `HIPOTIROIDISMO`: quarterly control. -/
def controls_hypothyroidism (has_hypothyroidism : Bool) (dsc : Int)
    (last : Option Int) : List Control :=
  if has_hypothyroidism then
    [⟨"control_hipotiroidismo", "Control de Hipotiroidismo",
      is_overdue dsc last 90, 90⟩]
  else []

/-- Block `EPOC`: quarterly control. -/
def controls_copd (has_copd : Bool) (dsc : Int) (last : Option Int) : List Control :=
  if has_copd then
    [⟨"control_epoc", "Control de EPOC", is_overdue dsc last 90, 90⟩]
  else []

/-- Block `ASMA`: quarterly control. -/
def controls_asthma (has_asthma : Bool) (dsc : Int) (last : Option Int) : List Control :=
  if has_asthma then
    [⟨"control_asma", "Control de Asma", is_overdue dsc last 90, 90⟩]
  else []

/-- Block `IRC`: quarterly control. -/
def controls_ckd (has_ckd : Bool) (dsc : Int) (last : Option Int) : List Control :=
  if has_ckd then
    [⟨"control_irc", "Control de Insuficiencia Renal Crónica",
      is_overdue dsc last 90, 90⟩]
  else []

/-- Block `ENFERMEDAD CARDIOVASCULAR ESTABLECIDA`: quarterly control. -/
def controls_cvd (has_cardiovascular_disease : Bool) (dsc : Int) (last : Option Int) :
    List Control :=
  if has_cardiovascular_disease then
    [⟨"control_cardiovascular", "Control de Enfermedad Cardiovascular",
      is_overdue dsc last 90, 90⟩]
  else []

/-- Block `RIESGO CARDIOVASCULAR (sin enfermedad establecida)`, mirroring
the literal Python condition
`has_cardiovascular_risk and age and age >= 40 and not has_cardiovascular_disease`. -/
def controls_cv_risk (has_cardiovascular_risk has_cardiovascular_disease : Bool)
    (a : Int) (dsc : Int) (last : Option Int) : List Control :=
  if has_cardiovascular_risk = true ∧ a ≠ 0 ∧ a ≥ 40
      ∧ ¬ has_cardiovascular_disease = true then
    [⟨"control_riesgo_cardiovascular", "Evaluación de Riesgo Cardiovascular",
      is_overdue dsc last 365, 365⟩]
  else []

/-- Block `CONTROL DE MEDICAMENTOS`: appended when at least two of the
seven chronic-condition flags are set. -/
def controls_medications (is_hypertensive is_diabetic has_hypothyroidism has_copd
    has_asthma has_ckd has_cardiovascular_disease : Bool) : List Control :=
  let count : Int :=
    (if is_hypertensive then 1 else 0) + (if is_diabetic then 1 else 0)
    + (if has_hypothyroidism then 1 else 0) + (if has_copd then 1 else 0)
    + (if has_asthma then 1 else 0) + (if has_ckd then 1 else 0)
    + (if has_cardiovascular_disease then 1 else 0)
  if count ≥ 2 then
    [⟨"control_medicamentos", "Revisión de Medicamentos", false, 180⟩]
  else []

/-- `PatientClassifier.determine_required_controls`: the guard
`if not age or not age_group` returns the empty list when the age is
missing, when it is the (falsy) integer 0, and when no age band matches;
otherwise the blocks above are emitted in source order.
`days_since_control` is 0 when there is no last control date. -/
def determine_required_controls (today : Int) (age : Option Int) (sex : Option String)
    (is_pregnant is_hypertensive is_diabetic has_hypothyroidism has_copd
     has_asthma has_ckd has_cardiovascular_disease has_cardiovascular_risk : Bool)
    (last_control_date : Option Int) : List Control :=
  match age, classify_age_group age with
  | some a, some g =>
    if a = 0 then []
    else
      let dsc : Int :=
        match last_control_date with
        | some l => today - l
        | none => 0
      controls_age_band g a sex is_hypertensive is_diabetic has_cardiovascular_risk
          dsc last_control_date
      ++ controls_prenatal sex is_pregnant
      ++ controls_hypertension is_hypertensive dsc last_control_date
      ++ controls_diabetes is_diabetic dsc last_control_date
      ++ controls_hypothyroidism has_hypothyroidism dsc last_control_date
      ++ controls_copd has_copd dsc last_control_date
      ++ controls_asthma has_asthma dsc last_control_date
      ++ controls_ckd has_ckd dsc last_control_date
      ++ controls_cvd has_cardiovascular_disease dsc last_control_date
      ++ controls_cv_risk has_cardiovascular_risk has_cardiovascular_disease a dsc
           last_control_date
      ++ controls_medications is_hypertensive is_diabetic has_hypothyroidism has_copd
           has_asthma has_ckd has_cardiovascular_disease
  | _, _ => []

/-! ## RiskCalculator (`app/services/risk_calculator.py`)

Float arithmetic is modelled with exact rationals; every numeric constant in
the source is a decimal literal, hence exactly representable.  Python's
`round(x, 1)` is modelled as round-half-even at one decimal.  The `points`
and `interpretation`/`notes` echo fields of the returned dicts are omitted. -/

/-- Result dict of one risk algorithm (echo fields omitted). -/
structure RiskResult where
  algorithm : String
  risk_percentage : ℚ
  risk_category : String
deriving Repr, DecidableEq

/-- Round to the nearest integer, ties to even (Python `round`). -/
def roundHalfEven (q : ℚ) : ℤ :=
  let f := ⌊q⌋
  let r := q - f
  if r < 1 / 2 then f
  else if r > 1 / 2 then f + 1
  else if f % 2 = 0 then f else f + 1

/-- Python `round(x, 1)`. -/
def round1 (q : ℚ) : ℚ := (roundHalfEven (q * 10) : ℚ) / 10

/-- `RiskCalculator.calculate_framingham_risk`.  The Python guard
`not all([age, sex, systolic_bp, cholesterol_total, hdl])` rejects falsy
values (0 or the empty string); ages outside [30, 74] also yield `None`. -/
def calculate_framingham_risk (age : Int) (sex : String) (systolic_bp : Int)
    (cholesterol_total hdl : ℚ) (is_smoker is_diabetic : Bool)
    (is_on_bp_meds : Bool := false) : Option RiskResult :=
  if age = 0 ∨ sex = "" ∨ systolic_bp = 0 ∨ cholesterol_total = 0 ∨ hdl = 0 then none
  else if age < 30 ∨ age > 74 then none
  else
    let agePoints : Int :=
      if sex = "M" then
        if age ≥ 70 then 11 else if age ≥ 60 then 8 else if age ≥ 50 then 5
        else if age ≥ 40 then 2 else 0
      else
        if age ≥ 70 then 12 else if age ≥ 60 then 9 else if age ≥ 50 then 6
        else if age ≥ 40 then 3 else 0
    let cholPoints : Int :=
      if cholesterol_total ≥ 280 then 3 else if cholesterol_total ≥ 240 then 2
      else if cholesterol_total ≥ 200 then 1 else 0
    let hdlPoints : Int := if hdl ≥ 60 then -1 else if hdl < 40 then 2 else 0
    let bpPoints : Int :=
      if is_on_bp_meds then
        if systolic_bp ≥ 160 then 3 else if systolic_bp ≥ 140 then 2
        else if systolic_bp ≥ 130 then 1 else 0
      else
        if systolic_bp ≥ 160 then 2 else if systolic_bp ≥ 140 then 1 else 0
    let smokePoints : Int := if is_smoker then (if sex = "M" then 2 else 3) else 0
    let diabPoints : Int := if is_diabetic then 2 else 0
    let points := agePoints + cholPoints + hdlPoints + bpPoints + smokePoints + diabPoints
    let risk_pct : ℚ :=
      if points ≤ 0 then 1
      else if points ≤ 5 then 2 + points * 0.5
      else if points ≤ 10 then 5 + (points - 5) * 1.5
      else if points ≤ 15 then 12 + (points - 10) * 2.5
      else min 40 (25 + (points - 15) * 3)
    let category :=
      if risk_pct < 5 then "bajo" else if risk_pct < 10 then "moderado"
      else if risk_pct < 20 then "alto" else "muy_alto"
    some ⟨"framingham", round1 risk_pct, category⟩

/-- `RiskCalculator.calculate_ascvd_risk` (simplified Pooled Cohort
approximation with race multiplier; result clamped to [0.5, 50]). -/
def calculate_ascvd_risk (age : Int) (sex race : String) (systolic_bp : Int)
    (cholesterol_total hdl : ℚ) (is_smoker is_diabetic : Bool)
    (is_on_bp_meds : Bool := false) : Option RiskResult :=
  if age = 0 ∨ sex = "" ∨ systolic_bp = 0 ∨ cholesterol_total = 0 ∨ hdl = 0 then none
  else if age < 40 ∨ age > 79 then none
  else
    let base : ℚ := if sex = "M" then (age - 40) * 0.5 else (age - 40) * 0.4
    let cholAdd : ℚ :=
      if cholesterol_total > 240 then 3 else if cholesterol_total > 200 then 1.5 else 0
    let hdlAdd : ℚ := if hdl < 40 then 2 else if hdl > 60 then -1 else 0
    let bpAdd : ℚ :=
      if systolic_bp ≥ 160 then (if is_on_bp_meds then 3 else 2.5)
      else if systolic_bp ≥ 140 then (if is_on_bp_meds then 2 else 1.5)
      else if systolic_bp ≥ 130 then 1 else 0
    let smokeAdd : ℚ := if is_smoker then 2.5 else 0
    let diabAdd : ℚ := if is_diabetic then 2.5 else 0
    let score := base + cholAdd + hdlAdd + bpAdd + smokeAdd + diabAdd
    let risk_score : ℚ :=
      if race = "black" then score * 1.15
      else if race = "hispanic" then score * 0.95 else score
    let risk_pct : ℚ := min 50 (max 0.5 risk_score)
    let category :=
      if risk_pct < 5 then "bajo" else if risk_pct < 7.5 then "borderline"
      else if risk_pct < 20 then "intermedio" else "alto"
    some ⟨"ascvd", round1 risk_pct, category⟩

/-- `RiskCalculator.calculate_ausangate_risk`.  The optional `glucose` and
`bmi` values count only when truthy (`glucose and glucose >= …`). -/
def calculate_ausangate_risk (age : Int) (sex : String) (systolic_bp : Int)
    (cholesterol_total hdl : ℚ) (glucose : Option ℚ) (is_smoker is_diabetic : Bool)
    (bmi : Option ℚ := none) (family_history_cvd : Bool := false) : Option RiskResult :=
  if age = 0 ∨ sex = "" ∨ systolic_bp = 0 ∨ cholesterol_total = 0 ∨ hdl = 0 then none
  else if age < 30 ∨ age > 74 then none
  else
    let agePoints : Int :=
      if sex = "M" then
        if age ≥ 65 then 12 else if age ≥ 55 then 9 else if age ≥ 45 then 6
        else if age ≥ 35 then 3 else 0
      else
        if age ≥ 65 then 10 else if age ≥ 55 then 7 else if age ≥ 45 then 4
        else if age ≥ 35 then 2 else 0
    let bpPoints : Int :=
      if systolic_bp ≥ 160 then 4 else if systolic_bp ≥ 140 then 3
      else if systolic_bp ≥ 130 then 2 else if systolic_bp ≥ 120 then 1 else 0
    let cholPoints : Int :=
      if cholesterol_total ≥ 280 then 3 else if cholesterol_total ≥ 240 then 2
      else if cholesterol_total ≥ 200 then 1 else 0
    let hdlPoints : Int :=
      if hdl < 35 then 3 else if hdl < 40 then 2 else if hdl ≥ 60 then -1 else 0
    let glucosePoints : Int :=
      if is_diabetic then 4
      else if (match glucose with
               | some g => decide (g ≠ 0) && decide (g ≥ 126)
               | none => false) then 3
      else if (match glucose with
               | some g => decide (g ≠ 0) && decide (g ≥ 100)
               | none => false) then 2
      else 0
    let smokePoints : Int := if is_smoker then 3 else 0
    let bmiPoints : Int :=
      match bmi with
      | some b =>
        if b = 0 then 0
        else if b ≥ 35 then 3 else if b ≥ 30 then 2 else if b ≥ 25 then 1 else 0
      | none => 0
    let famPoints : Int := if family_history_cvd then 2 else 0
    let points := agePoints + bpPoints + cholPoints + hdlPoints + glucosePoints
      + smokePoints + bmiPoints + famPoints
    let risk_pct : ℚ :=
      if points ≤ 5 then 3
      else if points ≤ 10 then 5 + (points - 5) * 1.5
      else if points ≤ 15 then 12 + (points - 10) * 2
      else if points ≤ 20 then 22 + (points - 15) * 2.5
      else min 50 (35 + (points - 20) * 2)
    let category :=
      if risk_pct < 5 then "bajo" else if risk_pct < 10 then "moderado"
      else if risk_pct < 20 then "alto" else "muy_alto"
    some ⟨"ausangate", round1 risk_pct, category⟩

/-- Python truthiness of an optional int. -/
def truthyI : Option Int → Bool
  | none => false
  | some v => v ≠ 0

/-- Python truthiness of an optional rational. -/
def truthyQ : Option ℚ → Bool
  | none => false
  | some v => v ≠ 0

/-- Aggregated result of `calculate_comprehensive_cv_risk`
(recommendation list omitted). -/
structure ComprehensiveResult where
  framingham : Option RiskResult
  ascvd : Option RiskResult
  ausangate : Option RiskResult
  overall_risk_category : String
  highest_risk_percentage : ℚ
  recommended_algorithm : String
deriving Repr, DecidableEq

/-- The Framingham step of `calculate_comprehensive_cv_risk`: run only when
`all([systolic_bp, cholesterol_total, hdl])` holds and `30 <= age <= 74`. -/
def comp_framingham (age : Int) (sex : String) (systolic_bp : Option Int)
    (cholesterol_total hdl : Option ℚ) (is_smoker is_diabetic is_on_bp_meds : Bool) :
    Option RiskResult :=
  if (truthyI systolic_bp && truthyQ cholesterol_total && truthyQ hdl) = true
      ∧ 30 ≤ age ∧ age ≤ 74 then
    calculate_framingham_risk age sex (systolic_bp.getD 0) (cholesterol_total.getD 0)
      (hdl.getD 0) is_smoker is_diabetic is_on_bp_meds
  else none

/-- Running maximum and overall category after the Framingham step
(initial values `0` and `"bajo"`). -/
def comp_state1 (age : Int) (sex : String) (systolic_bp : Option Int)
    (cholesterol_total hdl : Option ℚ) (is_smoker is_diabetic is_on_bp_meds : Bool) :
    ℚ × String :=
  match comp_framingham age sex systolic_bp cholesterol_total hdl is_smoker
      is_diabetic is_on_bp_meds with
  | some f =>
    if f.risk_percentage > 0 then (f.risk_percentage, f.risk_category) else (0, "bajo")
  | none => (0, "bajo")

/-- The ASCVD step of `calculate_comprehensive_cv_risk`: run only when the
labs are truthy and `40 <= age <= 79`. -/
def comp_ascvd (age : Int) (sex race : String) (systolic_bp : Option Int)
    (cholesterol_total hdl : Option ℚ) (is_smoker is_diabetic is_on_bp_meds : Bool) :
    Option RiskResult :=
  if (truthyI systolic_bp && truthyQ cholesterol_total && truthyQ hdl) = true
      ∧ 40 ≤ age ∧ age ≤ 79 then
    calculate_ascvd_risk age sex race (systolic_bp.getD 0) (cholesterol_total.getD 0)
      (hdl.getD 0) is_smoker is_diabetic is_on_bp_meds
  else none

/-- Whether the ASCVD result strictly exceeds the running maximum at the time
it is evaluated — the only condition under which `recommended_algorithm`
is switched to `"ascvd"`. -/
def comp_ascvd_exceeds (age : Int) (sex race : String) (systolic_bp : Option Int)
    (cholesterol_total hdl : Option ℚ) (is_smoker is_diabetic is_on_bp_meds : Bool) :
    Bool :=
  match comp_ascvd age sex race systolic_bp cholesterol_total hdl is_smoker
      is_diabetic is_on_bp_meds with
  | some r =>
    r.risk_percentage > (comp_state1 age sex systolic_bp cholesterol_total hdl
      is_smoker is_diabetic is_on_bp_meds).1
  | none => false

/-- Running maximum, overall category and recommended algorithm after the
ASCVD step. -/
def comp_state2 (age : Int) (sex race : String) (systolic_bp : Option Int)
    (cholesterol_total hdl : Option ℚ) (is_smoker is_diabetic is_on_bp_meds : Bool) :
    ℚ × String × String :=
  let s1 := comp_state1 age sex systolic_bp cholesterol_total hdl is_smoker
    is_diabetic is_on_bp_meds
  match comp_ascvd age sex race systolic_bp cholesterol_total hdl is_smoker
      is_diabetic is_on_bp_meds with
  | some r =>
    if r.risk_percentage > s1.1 then (r.risk_percentage, r.risk_category, "ascvd")
    else (s1.1, s1.2, "ausangate")
  | none => (s1.1, s1.2, "ausangate")

/-- The Ausangate step of `calculate_comprehensive_cv_risk`: run only when
the labs are truthy and `30 <= age <= 74`. -/
def comp_ausangate (age : Int) (sex : String) (systolic_bp : Option Int)
    (cholesterol_total hdl glucose : Option ℚ) (is_smoker is_diabetic : Bool)
    (bmi : Option ℚ) (family_history_cvd : Bool) : Option RiskResult :=
  if (truthyI systolic_bp && truthyQ cholesterol_total && truthyQ hdl) = true
      ∧ 30 ≤ age ∧ age ≤ 74 then
    calculate_ausangate_risk age sex (systolic_bp.getD 0) (cholesterol_total.getD 0)
      (hdl.getD 0) glucose is_smoker is_diabetic bmi family_history_cvd
  else none

/-- `RiskCalculator.calculate_comprehensive_cv_risk`: runs the applicable
algorithms in order (Framingham, ASCVD, Ausangate), tracking the strictly
increasing running maximum; `recommended_algorithm` starts at `"ausangate"`,
switches to `"ascvd"` when ASCVD strictly exceeds the running maximum, and
back to `"ausangate"` when Ausangate does. -/
def calculate_comprehensive_cv_risk (age : Int) (sex : String)
    (systolic_bp diastolic_bp : Option Int)
    (cholesterol_total hdl ldl glucose : Option ℚ)
    (is_smoker is_diabetic is_hypertensive : Bool) (bmi : Option ℚ := none)
    (is_on_bp_meds : Bool := false) (race : String := "hispanic")
    (family_history_cvd : Bool := false) : ComprehensiveResult :=
  let fram := comp_framingham age sex systolic_bp cholesterol_total hdl is_smoker
    is_diabetic is_on_bp_meds
  let ascvd := comp_ascvd age sex race systolic_bp cholesterol_total hdl is_smoker
    is_diabetic is_on_bp_meds
  let s2 := comp_state2 age sex race systolic_bp cholesterol_total hdl is_smoker
    is_diabetic is_on_bp_meds
  let aus := comp_ausangate age sex systolic_bp cholesterol_total hdl glucose
    is_smoker is_diabetic bmi family_history_cvd
  match aus with
  | some u =>
    if u.risk_percentage > s2.1 then
      ⟨fram, ascvd, aus, u.risk_category, u.risk_percentage, "ausangate"⟩
    else ⟨fram, ascvd, aus, s2.2.1, s2.1, s2.2.2⟩
  | none => ⟨fram, ascvd, aus, s2.2.1, s2.1, s2.2.2⟩

/-! ## Claim theorems -/

/-- Predicate selecting alerts of a given type. -/
def isType (t : String) (al : Alert) : Bool := al.alert_type == t

/-- Predicate selecting controls of a given type. -/
def isCtrlType (t : String) (c : Control) : Bool := c.control_type == t

/-! Filter lemmas: each alert block contains no alert of a type other than
its own.  Used to localize a type's alerts to the block that emits them. -/

lemma alerts_general_adult_filter_ne (t : String) (today : Int)
    (led : String → Option Int) (a : Int) (hyp diab cvr : Bool)
    (h1 : ("toma_presion" == t) = false) (h2 : ("medicion_imc" == t) = false)
    (h3 : ("glicemia" == t) = false) :
    (alerts_general_adult today led a hyp diab cvr).filter (isType t) = [] := by
  simp only [alerts_general_adult]
  split_ifs <;> simp [isType, List.filter_cons, List.filter_nil, h1, h2, h3]

lemma alerts_children_filter_ne (t : String) (today : Int)
    (led : String → Option Int) (a : Int)
    (h1 : ("medicion_peso_talla" == t) = false)
    (h2 : ("tamizaje_desarrollo" == t) = false)
    (h3 : ("esquema_vacunacion_completo" == t) = false)
    (h4 : ("valoracion_odontologica" == t) = false) :
    (alerts_children today led a).filter (isType t) = [] := by
  simp only [alerts_children]
  split_ifs <;>
    simp [isType, List.filter_append, List.filter_cons, List.filter_nil, h1, h2, h3, h4]

lemma alerts_women_filter_ne (t : String) (today : Int)
    (led : String → Option Int) (sex : Option String) (a : Int)
    (h1 : ("citologia" == t) = false) (h2 : ("vph" == t) = false)
    (h3 : ("mamografia" == t) = false) :
    (alerts_women today led sex a).filter (isType t) = [] := by
  simp only [alerts_women]
  split_ifs <;>
    simp [isType, List.filter_append, List.filter_cons, List.filter_nil, h1, h2, h3]

lemma alerts_men_filter_ne (t : String) (today : Int)
    (led : String → Option Int) (sex : Option String) (a : Int)
    (h1 : ("psa" == t) = false) :
    (alerts_men today led sex a).filter (isType t) = [] := by
  simp only [alerts_men]
  split_ifs <;> simp [isType, List.filter_cons, List.filter_nil, h1]

lemma alerts_colorectal_filter_ne (t : String) (today : Int)
    (led : String → Option Int) (a : Int)
    (h1 : ("sangre_oculta_heces" == t) = false)
    (h2 : ("colonoscopia" == t) = false) :
    (alerts_colorectal today led a).filter (isType t) = [] := by
  simp only [alerts_colorectal]
  split_ifs <;>
    simp [isType, List.filter_append, List.filter_cons, List.filter_nil, h1, h2]

lemma alerts_sensory_filter_ne (t : String) (today : Int)
    (led : String → Option Int) (a : Int)
    (h1 : ("agudeza_visual" == t) = false)
    (h2 : ("agudeza_auditiva" == t) = false) :
    (alerts_sensory today led a).filter (isType t) = [] := by
  simp only [alerts_sensory]
  split_ifs <;>
    simp [isType, List.filter_append, List.filter_cons, List.filter_nil, h1, h2]

lemma alerts_adult_vaccination_filter_ne (t : String) (today : Int)
    (led : String → Option Int) (a : Int)
    (h1 : ("vacuna_influenza" == t) = false)
    (h2 : ("vacuna_neumococo" == t) = false)
    (h3 : ("vacuna_tetanos" == t) = false) :
    (alerts_adult_vaccination today led a).filter (isType t) = [] := by
  simp only [alerts_adult_vaccination]
  split_ifs <;>
    simp [isType, List.filter_append, List.filter_cons, List.filter_nil, h1, h2, h3]

lemma alerts_cv_risk_filter_ne (t : String) (today : Int)
    (led : String → Option Int) (a : Int) (cvr cvd : Bool) (lvl : Option String)
    (h1 : ("perfil_lipidico" == t) = false) (h2 : ("ekg" == t) = false) :
    (alerts_cv_risk today led a cvr cvd lvl).filter (isType t) = [] := by
  simp only [alerts_cv_risk]
  split_ifs <;>
    simp [isType, List.filter_append, List.filter_cons, List.filter_nil, h1, h2]

lemma alerts_pregnancy_filter_ne (t : String) (today : Int)
    (led : String → Option Int) (sex : Option String) (preg : Bool)
    (h1 : ("ecografia_obstetrica" == t) = false)
    (h2 : ("hemograma" == t) = false) :
    (alerts_pregnancy today led sex preg).filter (isType t) = [] := by
  simp only [alerts_pregnancy]
  split_ifs <;> simp [isType, List.filter_cons, List.filter_nil, h1, h2]

lemma alerts_hypertension_filter_ne (t : String) (today : Int)
    (led : String → Option Int) (hyp : Bool)
    (h1 : ("creatinina" == t) = false) (h2 : ("potasio" == t) = false)
    (h3 : ("microalbuminuria" == t) = false)
    (h4 : ("parcial_orina" == t) = false) :
    (alerts_hypertension today led hyp).filter (isType t) = [] := by
  simp only [alerts_hypertension]
  split_ifs <;> simp [isType, List.filter_cons, List.filter_nil, h1, h2, h3, h4]

lemma alerts_diabetes_filter_ne (t : String) (today : Int)
    (led : String → Option Int) (hyp diab : Bool)
    (h1 : ("hba1c" == t) = false) (h2 : ("fondo_ojo" == t) = false)
    (h3 : ("valoracion_pie_diabetico" == t) = false)
    (h4 : ("creatinina" == t) = false)
    (h5 : ("microalbuminuria" == t) = false) :
    (alerts_diabetes today led hyp diab).filter (isType t) = [] := by
  simp only [alerts_diabetes]
  split_ifs <;>
    simp [isType, List.filter_append, List.filter_cons, List.filter_nil,
      h1, h2, h3, h4, h5]

lemma alerts_hypothyroidism_filter_ne (t : String) (today : Int)
    (led : String → Option Int) (hypo : Bool)
    (h1 : ("tsh" == t) = false) (h2 : ("t4_libre" == t) = false) :
    (alerts_hypothyroidism today led hypo).filter (isType t) = [] := by
  simp only [alerts_hypothyroidism]
  split_ifs <;> simp [isType, List.filter_cons, List.filter_nil, h1, h2]

lemma alerts_copd_filter_ne (t : String) (today : Int)
    (led : String → Option Int) (copd : Bool)
    (h1 : ("espirometria" == t) = false) (h2 : ("rayos_x_torax" == t) = false)
    (h3 : ("gases_arteriales" == t) = false) :
    (alerts_copd today led copd).filter (isType t) = [] := by
  simp only [alerts_copd]
  split_ifs <;> simp [isType, List.filter_cons, List.filter_nil, h1, h2, h3]

lemma alerts_asthma_filter_ne (t : String) (today : Int)
    (led : String → Option Int) (asth : Bool)
    (h1 : ("espirometria" == t) = false) :
    (alerts_asthma today led asth).filter (isType t) = [] := by
  simp only [alerts_asthma]
  split_ifs <;> simp [isType, List.filter_cons, List.filter_nil, h1]

lemma alerts_ckd_filter_ne (t : String) (today : Int)
    (led : String → Option Int) (ckd : Bool)
    (h1 : ("clearance_creatinina" == t) = false) (h2 : ("bun" == t) = false)
    (h3 : ("hemograma" == t) = false) :
    (alerts_ckd today led ckd).filter (isType t) = [] := by
  simp only [alerts_ckd]
  split_ifs <;> simp [isType, List.filter_cons, List.filter_nil, h1, h2, h3]

lemma alerts_cvd_filter_ne (t : String) (today : Int)
    (led : String → Option Int) (cvd : Bool)
    (h1 : ("ecocardiograma" == t) = false) :
    (alerts_cvd today led cvd).filter (isType t) = [] := by
  simp only [alerts_cvd]
  split_ifs <;> simp [isType, List.filter_cons, List.filter_nil, h1]

/-- C8: `classify_attention_type` returns `grupo_b` iff at least one of the
seven chronic flags is set and `grupo_a` otherwise; flipping any single
chronic flag from the all-false state flips the result to `grupo_b`; the
`has_cardiovascular_risk` argument never affects the result. -/
theorem classify_attention_type_grupo_b_iff :
    ∀ h d t c a k v r r' : Bool,
      (classify_attention_type h d t c a k v r = "grupo_b"
        ↔ (h || d || t || c || a || k || v) = true)
      ∧ (classify_attention_type h d t c a k v r = "grupo_a"
        ↔ (h || d || t || c || a || k || v) = false)
      ∧ classify_attention_type h d t c a k v r
          = classify_attention_type h d t c a k v r'
      ∧ classify_attention_type false false false false false false false r = "grupo_a"
      ∧ classify_attention_type true false false false false false false r = "grupo_b"
      ∧ classify_attention_type false true false false false false false r = "grupo_b"
      ∧ classify_attention_type false false true false false false false r = "grupo_b"
      ∧ classify_attention_type false false false true false false false r = "grupo_b"
      ∧ classify_attention_type false false false false true false false r = "grupo_b"
      ∧ classify_attention_type false false false false false true false r = "grupo_b"
      ∧ classify_attention_type false false false false false false true r = "grupo_b" := by
  decide

/-- C10: `generate_alerts` treats the integer age 0 exactly like a missing
age (`if not age`): an age-0 patient receives no alerts whatever the other
flags say. -/
theorem generate_alerts_age_zero_empty (today : Int) (sex : Option String)
    (preg hyp diab hypo copd asth ckd cvd cvr : Bool) (lvl : Option String)
    (led : String → Option Int) :
    generate_alerts today (some 0) sex preg hyp diab hypo copd asth ckd cvd cvr
      lvl led = [] := rfl

/-- C1: the code slip behind the claim — `determine_required_controls`
returns the empty list for age 0 even though `classify_age_group` places
age 0 in the primera-infancia band (and the block's own `age < 1`
vaccination frequency is unreachable because of the `if not age` guard). -/
theorem determine_required_controls_age_zero_empty (today : Int)
    (sex : Option String) (preg hyp diab hypo copd asth ckd cvd cvr : Bool)
    (last : Option Int) :
    determine_required_controls today (some 0) sex preg hyp diab hypo copd asth
        ckd cvd cvr last = []
      ∧ classify_age_group (some 0) = some "primera_infancia" := by
  exact ⟨rfl, rfl⟩

/-- C2 counterexample: adding a 365-day interval to 2024-01-01 lands on
2024-12-31 (2024 is a leap year), not on 2025-01-01 as the claim asserts;
concretely, the glycemia alert computed from
`last_exam_dates['glicemia'] = 2024-01-01` is due 2024-12-31. -/
theorem glicemia_due_2024_is_leap :
    ((generate_alerts (dateOrdinal 2025 6 15) (some 45) none false false true false
        false false false false false none
        (fun k => if k = "glicemia" then some (dateOrdinal 2024 1 1) else none)).filter
      (isType "glicemia")).map Alert.due_date = [dateOrdinal 2024 12 31]
      ∧ dateOrdinal 2024 12 31 ≠ dateOrdinal 2025 1 1 := by
  constructor
  · decide
  · decide

/-- C3 counterexample: for a concrete pregnant woman with a recorded last
obstetric ultrasound at ordinal 1000, the generated alert is due at
1000 + 90 (the code uses a 90-day interval), not at 1000 + 42 as the
claim's 6-week interval would give. -/
theorem obstetric_ultrasound_interval_is_90_not_42 :
    ((generate_alerts 2000 (some 25) (some "F") true false false false false false
        false false false none
        (fun k => if k = "ecografia_obstetrica" then some 1000 else none)).filter
      (isType "ecografia_obstetrica")).map Alert.due_date = [1000 + 90]
      ∧ (1000 + 90 : Int) ≠ 1000 + 42 := by
  constructor
  · decide
  · decide

/-- C4 counterexample: for an 8-year-old with no prior control, the
mental-health screening control of the infancia band is emitted with
`is_urgent = false`, refuting "every age-band-derived control is urgent
when `last_control_date` is null". -/
theorem infancia_mental_health_not_urgent :
    ((determine_required_controls 0 (some 8) none false false false false false
        false false false false none).filter
      (isCtrlType "salud_mental")).map Control.is_urgent = [false] := by
  decide

/-- C5 counterexample: a patient with both hypertension and diabetes but
age 0 (a non-null age) receives zero creatinine and zero microalbuminuria
alerts, because the `if not age` guard empties the whole output. -/
theorem dedup_claim_fails_at_age_zero :
    (generate_alerts 0 (some 0) (some "M") false true true false false false
        false false false none (fun _ => none)).countP (isType "creatinina") = 0
      ∧ (generate_alerts 0 (some 0) (some "M") false true true false false false
        false false false none (fun _ => none)).countP (isType "microalbuminuria")
        = 0 := by
  constructor
  · decide
  · decide

/-- C6 counterexample: a pregnant female patient of age 0 has a non-null
age group (primera infancia), yet `determine_required_controls` returns the
empty list, so no prenatal control is produced. -/
theorem prenatal_claim_fails_at_age_zero :
    determine_required_controls 0 (some 0) (some "F") true false false false
        false false false false false none = []
      ∧ classify_age_group (some 0) ≠ none := by
  constructor
  · rfl
  · decide

/-- C2 (amended): whenever `last_exam_dates` has an entry for an alert's
exam key, the due date is that date plus the interval, independently of
today; for the glycemia alert of an adult diabetic this gives
`last + 365`; and 365 days after 2024-01-01 is 2024-12-31 (2024 is a leap
year), not 2025-01-01. -/
theorem glicemia_due_date_from_history :
    (∀ (t₁ t₂ : Int) (led : String → Option Int) (k : String) (n : Int) (u : Bool)
        (d : Int), led k = some d →
        calculate_due_date t₁ led k n u = d + n
          ∧ calculate_due_date t₁ led k n u = calculate_due_date t₂ led k n u)
    ∧ (∀ (today a d : Int) (sex : Option String)
        (preg hyp hypo copd asth ckd cvd cvr : Bool) (lvl : Option String)
        (led : String → Option Int), 18 ≤ a → led "glicemia" = some d →
        (generate_alerts today (some a) sex preg hyp true hypo copd asth ckd cvd
            cvr lvl led).filter (isType "glicemia")
          = [⟨"glicemia", "Glicemia en Ayunas", "media", d + 365⟩])
    ∧ dateOrdinal 2024 1 1 + 365 = dateOrdinal 2024 12 31
    ∧ dateOrdinal 2024 12 31 ≠ dateOrdinal 2025 1 1 := by
  refine ⟨?_, ?_, by decide, by decide⟩
  · intro t₁ t₂ led k n u d h
    unfold calculate_due_date
    rw [h]
    exact ⟨rfl, rfl⟩
  · intro today a d sex preg hyp hypo copd asth ckd cvd cvr lvl led ha hled
    have ha0 : a ≠ 0 := by omega
    simp only [generate_alerts]
    rw [if_neg ha0]
    simp only [List.filter_append]
    rw [alerts_children_filter_ne "glicemia" _ _ _ rfl rfl rfl rfl,
        alerts_women_filter_ne "glicemia" _ _ _ _ rfl rfl rfl,
        alerts_men_filter_ne "glicemia" _ _ _ _ rfl,
        alerts_colorectal_filter_ne "glicemia" _ _ _ rfl rfl,
        alerts_sensory_filter_ne "glicemia" _ _ _ rfl rfl,
        alerts_adult_vaccination_filter_ne "glicemia" _ _ _ rfl rfl rfl,
        alerts_cv_risk_filter_ne "glicemia" _ _ _ _ _ _ rfl rfl,
        alerts_pregnancy_filter_ne "glicemia" _ _ _ _ rfl rfl,
        alerts_hypertension_filter_ne "glicemia" _ _ _ rfl rfl rfl rfl,
        alerts_diabetes_filter_ne "glicemia" _ _ _ _ rfl rfl rfl rfl rfl,
        alerts_hypothyroidism_filter_ne "glicemia" _ _ _ rfl rfl,
        alerts_copd_filter_ne "glicemia" _ _ _ rfl rfl rfl,
        alerts_asthma_filter_ne "glicemia" _ _ _ rfl,
        alerts_ckd_filter_ne "glicemia" _ _ _ rfl rfl rfl,
        alerts_cvd_filter_ne "glicemia" _ _ _ rfl]
    simp only [alerts_general_adult, if_pos ha]
    simp [isType, List.filter_cons, List.filter_nil, calculate_due_date, hled]

/-- Witness for C2: a concrete 45-year-old diabetic with a 2024-01-01
glycemia record is due on 2024-12-31 (= that ordinal plus 365). -/
theorem glicemia_due_date_from_history_witness :
    (generate_alerts 0 (some 45) none false false true false false false false
        false false none
        (fun k => if k = "glicemia" then some (dateOrdinal 2024 1 1) else none)).filter
      (isType "glicemia")
      = [⟨"glicemia", "Glicemia en Ayunas", "media", dateOrdinal 2024 1 1 + 365⟩] :=
  glicemia_due_date_from_history.2.1 0 45 (dateOrdinal 2024 1 1) none false false
    false false false false false false none
    (fun k => if k = "glicemia" then some (dateOrdinal 2024 1 1) else none)
    (by decide) rfl

/-- C3 (amended): every pregnant female patient with a truthy (nonzero) age
gets exactly one obstetric-ultrasound alert, with `urgente` priority and a
due date computed by the urgent policy from a 90-day interval (the code's
interval is 90 days, not the 42 days the claim stated). -/
theorem pregnancy_ultrasound_alert (today a : Int) (ha : a ≠ 0)
    (hyp diab hypo copd asth ckd cvd cvr : Bool) (lvl : Option String)
    (led : String → Option Int) :
    (generate_alerts today (some a) (some "F") true hyp diab hypo copd asth ckd
        cvd cvr lvl led).filter (isType "ecografia_obstetrica")
      = [⟨"ecografia_obstetrica", "Ecografía Obstétrica", "urgente",
          calculate_due_date today led "ecografia_obstetrica" 90 true⟩] := by
  simp only [generate_alerts]
  rw [if_neg ha]
  simp only [List.filter_append]
  rw [alerts_general_adult_filter_ne "ecografia_obstetrica" _ _ _ _ _ _ rfl rfl rfl,
      alerts_children_filter_ne "ecografia_obstetrica" _ _ _ rfl rfl rfl rfl,
      alerts_women_filter_ne "ecografia_obstetrica" _ _ _ _ rfl rfl rfl,
      alerts_men_filter_ne "ecografia_obstetrica" _ _ _ _ rfl,
      alerts_colorectal_filter_ne "ecografia_obstetrica" _ _ _ rfl rfl,
      alerts_sensory_filter_ne "ecografia_obstetrica" _ _ _ rfl rfl,
      alerts_adult_vaccination_filter_ne "ecografia_obstetrica" _ _ _ rfl rfl rfl,
      alerts_cv_risk_filter_ne "ecografia_obstetrica" _ _ _ _ _ _ rfl rfl,
      alerts_hypertension_filter_ne "ecografia_obstetrica" _ _ _ rfl rfl rfl rfl,
      alerts_diabetes_filter_ne "ecografia_obstetrica" _ _ _ _ rfl rfl rfl rfl rfl,
      alerts_hypothyroidism_filter_ne "ecografia_obstetrica" _ _ _ rfl rfl,
      alerts_copd_filter_ne "ecografia_obstetrica" _ _ _ rfl rfl rfl,
      alerts_asthma_filter_ne "ecografia_obstetrica" _ _ _ rfl,
      alerts_ckd_filter_ne "ecografia_obstetrica" _ _ _ rfl rfl rfl,
      alerts_cvd_filter_ne "ecografia_obstetrica" _ _ _ rfl]
  simp [alerts_pregnancy, isType, List.filter_cons, List.filter_nil]

/-- Witness for C3: a concrete 25-year-old pregnant woman with no exam
history gets the obstetric-ultrasound alert (due today + 30 by the urgent
no-history policy). -/
theorem pregnancy_ultrasound_alert_witness :
    (generate_alerts 0 (some 25) (some "F") true false false false false false
        false false false none (fun _ => none)).filter
      (isType "ecografia_obstetrica")
      = [⟨"ecografia_obstetrica", "Ecografía Obstétrica", "urgente",
          calculate_due_date 0 (fun _ => none) "ecografia_obstetrica" 90 true⟩] :=
  pregnancy_ultrasound_alert 0 25 (by decide) false false false false false false
    false false none (fun _ => none)

/-- C5 (amended): every patient with both hypertension and diabetes and a
truthy (nonzero) age gets exactly one creatinine alert and exactly one
microalbuminuria alert, both from the hypertension block with the 180-day
interval — the diabetes block's copies are suppressed. -/
theorem creatinina_microalbuminuria_dedup (today a : Int) (ha : a ≠ 0)
    (sex : Option String) (preg hypo copd asth ckd cvd cvr : Bool)
    (lvl : Option String) (led : String → Option Int) :
    (generate_alerts today (some a) sex preg true true hypo copd asth ckd cvd cvr
        lvl led).filter (isType "creatinina")
      = [⟨"creatinina", "Creatinina Sérica", "alta",
          calculate_due_date today led "creatinina" 180 true⟩]
    ∧ (generate_alerts today (some a) sex preg true true hypo copd asth ckd cvd
        cvr lvl led).filter (isType "microalbuminuria")
      = [⟨"microalbuminuria", "Microalbuminuria", "alta",
          calculate_due_date today led "microalbuminuria" 180 true⟩] := by
  constructor
  · simp only [generate_alerts]
    rw [if_neg ha]
    simp only [List.filter_append]
    rw [alerts_general_adult_filter_ne "creatinina" _ _ _ _ _ _ rfl rfl rfl,
        alerts_children_filter_ne "creatinina" _ _ _ rfl rfl rfl rfl,
        alerts_women_filter_ne "creatinina" _ _ _ _ rfl rfl rfl,
        alerts_men_filter_ne "creatinina" _ _ _ _ rfl,
        alerts_colorectal_filter_ne "creatinina" _ _ _ rfl rfl,
        alerts_sensory_filter_ne "creatinina" _ _ _ rfl rfl,
        alerts_adult_vaccination_filter_ne "creatinina" _ _ _ rfl rfl rfl,
        alerts_cv_risk_filter_ne "creatinina" _ _ _ _ _ _ rfl rfl,
        alerts_pregnancy_filter_ne "creatinina" _ _ _ _ rfl rfl,
        alerts_hypothyroidism_filter_ne "creatinina" _ _ _ rfl rfl,
        alerts_copd_filter_ne "creatinina" _ _ _ rfl rfl rfl,
        alerts_asthma_filter_ne "creatinina" _ _ _ rfl,
        alerts_ckd_filter_ne "creatinina" _ _ _ rfl rfl rfl,
        alerts_cvd_filter_ne "creatinina" _ _ _ rfl]
    simp [alerts_hypertension, alerts_diabetes, isType, List.filter_cons,
      List.filter_nil]
  · simp only [generate_alerts]
    rw [if_neg ha]
    simp only [List.filter_append]
    rw [alerts_general_adult_filter_ne "microalbuminuria" _ _ _ _ _ _ rfl rfl rfl,
        alerts_children_filter_ne "microalbuminuria" _ _ _ rfl rfl rfl rfl,
        alerts_women_filter_ne "microalbuminuria" _ _ _ _ rfl rfl rfl,
        alerts_men_filter_ne "microalbuminuria" _ _ _ _ rfl,
        alerts_colorectal_filter_ne "microalbuminuria" _ _ _ rfl rfl,
        alerts_sensory_filter_ne "microalbuminuria" _ _ _ rfl rfl,
        alerts_adult_vaccination_filter_ne "microalbuminuria" _ _ _ rfl rfl rfl,
        alerts_cv_risk_filter_ne "microalbuminuria" _ _ _ _ _ _ rfl rfl,
        alerts_pregnancy_filter_ne "microalbuminuria" _ _ _ _ rfl rfl,
        alerts_hypothyroidism_filter_ne "microalbuminuria" _ _ _ rfl rfl,
        alerts_copd_filter_ne "microalbuminuria" _ _ _ rfl rfl rfl,
        alerts_asthma_filter_ne "microalbuminuria" _ _ _ rfl,
        alerts_ckd_filter_ne "microalbuminuria" _ _ _ rfl rfl rfl,
        alerts_cvd_filter_ne "microalbuminuria" _ _ _ rfl]
    simp [alerts_hypertension, alerts_diabetes, isType, List.filter_cons,
      List.filter_nil]

/-- Witness for C5: a concrete 50-year-old with both conditions and no exam
history gets exactly one creatinine and one microalbuminuria alert. -/
theorem creatinina_microalbuminuria_dedup_witness :
    (generate_alerts 0 (some 50) none false true true false false false false
        false false none (fun _ => none)).filter (isType "creatinina")
      = [⟨"creatinina", "Creatinina Sérica", "alta",
          calculate_due_date 0 (fun _ => none) "creatinina" 180 true⟩]
    ∧ (generate_alerts 0 (some 50) none false true true false false false false
        false false none (fun _ => none)).filter (isType "microalbuminuria")
      = [⟨"microalbuminuria", "Microalbuminuria", "alta",
          calculate_due_date 0 (fun _ => none) "microalbuminuria" 180 true⟩] :=
  creatinina_microalbuminuria_dedup 0 50 (by decide) none false false false false
    false false false none (fun _ => none)

/-- C6 (amended): for every pregnant female patient with a truthy age
(`1 ≤ a`; the falsy-zero guard excludes age 0), the returned list contains
the prenatal control with `is_urgent = true` and frequency 30, for every
`last_control_date` — including one equal to today. -/
theorem prenatal_control_always_urgent (today a : Int) (ha : 1 ≤ a)
    (hyp diab hypo copd asth ckd cvd cvr : Bool) (last : Option Int) :
    (⟨"control_prenatal", "Control Prenatal", true, 30⟩ : Control) ∈
      determine_required_controls today (some a) (some "F") true hyp diab hypo
        copd asth ckd cvd cvr last := by
  rcases hg : classify_age_group (some a) with _ | g
  · exfalso
    simp only [classify_age_group] at hg
    split_ifs at hg <;> first | exact Option.noConfusion hg | omega
  · simp only [determine_required_controls, hg]
    rw [if_neg (by omega : ¬ a = 0)]
    iterate 9 apply List.mem_append_left
    apply List.mem_append_right
    simp [controls_prenatal]

/-- Witness for C6: a pregnant 25-year-old whose last control is today
(`last = some today` with `today = 0`) still gets an urgent prenatal
control. -/
theorem prenatal_control_always_urgent_witness :
    (⟨"control_prenatal", "Control Prenatal", true, 30⟩ : Control) ∈
      determine_required_controls 0 (some 25) (some "F") true false false false
        false false false false false (some 0) :=
  prenatal_control_always_urgent 0 25 (by decide) false false false false false
    false false false (some 0)

/-- C9: each risk algorithm returns `None` outside its validated age range
(Framingham and Ausangate [30, 74], ASCVD [40, 79]) and when any required
input is falsy (empty-string sex, zero blood pressure, zero cholesterol,
zero HDL), never raising. -/
theorem risk_algorithm_range_gating :
    (∀ (age : Int) (sex : String) (sbp : Int) (chol hdl : ℚ) (sm db meds : Bool),
        (age < 30 ∨ 74 < age →
          calculate_framingham_risk age sex sbp chol hdl sm db meds = none)
        ∧ calculate_framingham_risk age "" sbp chol hdl sm db meds = none
        ∧ calculate_framingham_risk age sex 0 chol hdl sm db meds = none
        ∧ calculate_framingham_risk age sex sbp 0 hdl sm db meds = none
        ∧ calculate_framingham_risk age sex sbp chol 0 sm db meds = none)
    ∧ (∀ (age : Int) (sex race : String) (sbp : Int) (chol hdl : ℚ)
        (sm db meds : Bool),
        (age < 40 ∨ 79 < age →
          calculate_ascvd_risk age sex race sbp chol hdl sm db meds = none)
        ∧ calculate_ascvd_risk age "" race sbp chol hdl sm db meds = none
        ∧ calculate_ascvd_risk age sex race 0 chol hdl sm db meds = none
        ∧ calculate_ascvd_risk age sex race sbp 0 hdl sm db meds = none
        ∧ calculate_ascvd_risk age sex race sbp chol 0 sm db meds = none)
    ∧ (∀ (age : Int) (sex : String) (sbp : Int) (chol hdl : ℚ) (glucose : Option ℚ)
        (sm db : Bool) (bmi : Option ℚ) (fam : Bool),
        (age < 30 ∨ 74 < age →
          calculate_ausangate_risk age sex sbp chol hdl glucose sm db bmi fam
            = none)
        ∧ calculate_ausangate_risk age "" sbp chol hdl glucose sm db bmi fam = none
        ∧ calculate_ausangate_risk age sex 0 chol hdl glucose sm db bmi fam = none
        ∧ calculate_ausangate_risk age sex sbp 0 hdl glucose sm db bmi fam = none
        ∧ calculate_ausangate_risk age sex sbp chol 0 glucose sm db bmi fam
            = none) := by
  refine ⟨fun age sex sbp chol hdl sm db meds =>
      ⟨fun h => ?_, by simp [calculate_framingham_risk],
        by simp [calculate_framingham_risk], by simp [calculate_framingham_risk],
        by simp [calculate_framingham_risk]⟩,
    fun age sex race sbp chol hdl sm db meds =>
      ⟨fun h => ?_, by simp [calculate_ascvd_risk], by simp [calculate_ascvd_risk],
        by simp [calculate_ascvd_risk], by simp [calculate_ascvd_risk]⟩,
    fun age sex sbp chol hdl glucose sm db bmi fam =>
      ⟨fun h => ?_, by simp [calculate_ausangate_risk],
        by simp [calculate_ausangate_risk], by simp [calculate_ausangate_risk],
        by simp [calculate_ausangate_risk]⟩⟩
  · unfold calculate_framingham_risk
    split <;> first | rfl | (exfalso; omega)
  · unfold calculate_ascvd_risk
    split <;> first | rfl | (exfalso; omega)
  · unfold calculate_ausangate_risk
    split <;> first | rfl | (exfalso; omega)

/-- Witness for C9: the concrete out-of-range ages named by the claim all
yield `None`. -/
theorem risk_algorithm_range_gating_witness :
    calculate_framingham_risk 25 "M" 120 200 50 false false false = none
    ∧ calculate_framingham_risk 80 "M" 120 200 50 false false false = none
    ∧ calculate_ascvd_risk 35 "M" "hispanic" 120 200 50 false false false = none
    ∧ calculate_ausangate_risk 80 "M" 120 200 50 none false false none false
        = none :=
  ⟨(risk_algorithm_range_gating.1 25 "M" 120 200 50 false false false).1
      (by decide),
   (risk_algorithm_range_gating.1 80 "M" 120 200 50 false false false).1
      (by decide),
   (risk_algorithm_range_gating.2.1 35 "M" "hispanic" 120 200 50 false false
      false).1 (by decide),
   (risk_algorithm_range_gating.2.2 80 "M" 120 200 50 none false false none
      false).1 (by decide)⟩

/-! Machinery for C4: band controls whose urgency is the band's overdue flag. -/

/-- Control types emitted by the age-band blocks with a hardcoded
`is_urgent: False` (mental health, sexual/reproductive health, STI
detection, family planning, and the vejez cognitive evaluation, which
reuses the `salud_mental` type). -/
def never_urgent_types : List String :=
  ["salud_mental", "salud_sexual_reproductiva", "deteccion_its",
   "planificacion_familiar"]

/-- The `frequency_days` local of the age-band block matching age `a`, for
a patient with no chronic conditions and no cardiovascular risk (so the
adultez band uses 730). -/
def band_frequency (a : Int) : Int :=
  if 0 ≤ a ∧ a ≤ 5 then (if a < 2 then 60 else 180)
  else if 6 ≤ a ∧ a ≤ 11 then 365
  else if 12 ≤ a ∧ a ≤ 17 then 365
  else if 18 ≤ a ∧ a ≤ 28 then 730
  else if 29 ≤ a ∧ a ≤ 59 then 730
  else 365

/-- With all condition flags false, `determine_required_controls` reduces to
the age-band block alone. -/
lemma determine_controls_flags_false (today a : Int) (sex : Option String)
    (last : Option Int) (ha0 : a ≠ 0) (g : String)
    (hg : classify_age_group (some a) = some g) :
    determine_required_controls today (some a) sex false false false false false
        false false false false last
      = controls_age_band g a sex false false false
          (match last with | some l => today - l | none => 0) last := by
  simp only [determine_required_controls, hg]
  rw [if_neg ha0]
  simp [controls_prenatal, controls_hypertension, controls_diabetes,
    controls_hypothyroidism, controls_copd, controls_asthma, controls_ckd,
    controls_cvd, controls_cv_risk, controls_medications]

/-- Every control of the age-band block that is not in
`never_urgent_types` carries exactly the band's overdue flag. -/
lemma band_controls_urgency (today a : Int) (sex : Option String)
    (last : Option Int) (h1 : 1 ≤ a) (b : Bool)
    (hb : is_overdue (match last with | some l => today - l | none => 0) last
        (band_frequency a) = b) :
    ∀ c ∈ determine_required_controls today (some a) sex false false false false
        false false false false false last,
      c.control_type ∉ never_urgent_types → c.is_urgent = b := by
  have ha0 : a ≠ 0 := by omega
  by_cases hA : a ≤ 5
  · -- primera infancia
    have hg : classify_age_group (some a) = some "primera_infancia" := by
      simp only [classify_age_group]
      rw [if_pos (by omega)]
    have hf : band_frequency a = (if a < 2 then 60 else 180) := by
      simp only [band_frequency]
      rw [if_pos (by omega)]
    rw [determine_controls_flags_false today a sex last ha0 _ hg]
    rw [hf] at hb
    simp only [controls_age_band, if_pos rfl, controls_primera_infancia]
    intro c hc hn
    rcases (by simpa using hc : c = _ ∨ c = _ ∨ c = _ ∨ c = _) with
      rfl | rfl | rfl | rfl <;> exact hb
  by_cases hB : a ≤ 11
  · -- infancia
    have hg : classify_age_group (some a) = some "infancia" := by
      simp only [classify_age_group]
      rw [if_neg (by omega), if_pos (by omega)]
    have hf : band_frequency a = 365 := by
      simp only [band_frequency]
      rw [if_neg (by omega), if_pos (by omega)]
    rw [determine_controls_flags_false today a sex last ha0 _ hg]
    rw [hf] at hb
    simp only [controls_age_band, controls_infancia]
    norm_num
    intro c hc hn
    rcases (by simpa using hc : c = _ ∨ c = _ ∨ c = _ ∨ c = _) with
      rfl | rfl | rfl | rfl
    · exact hb
    · exact hb
    · exact hb
    · simp [never_urgent_types] at hn
  by_cases hC : a ≤ 17
  · -- adolescencia
    have hg : classify_age_group (some a) = some "adolescencia" := by
      simp only [classify_age_group]
      rw [if_neg (by omega), if_neg (by omega), if_pos (by omega)]
    have hf : band_frequency a = 365 := by
      simp only [band_frequency]
      rw [if_neg (by omega), if_neg (by omega), if_pos (by omega)]
    rw [determine_controls_flags_false today a sex last ha0 _ hg]
    rw [hf] at hb
    simp only [controls_age_band, controls_adolescencia]
    norm_num
    intro c hc hn
    rcases (by simpa using hc : c = _ ∨ c = _ ∨ c = _ ∨ c = _) with
      rfl | rfl | rfl | rfl
    · exact hb
    · simp [never_urgent_types] at hn
    · simp [never_urgent_types] at hn
    · simp [never_urgent_types] at hn
  by_cases hD : a ≤ 28
  · -- juventud
    have hg : classify_age_group (some a) = some "juventud" := by
      simp only [classify_age_group]
      rw [if_neg (by omega), if_neg (by omega), if_neg (by omega),
        if_pos (by omega)]
    have hf : band_frequency a = 730 := by
      simp only [band_frequency]
      rw [if_neg (by omega), if_neg (by omega), if_neg (by omega),
        if_pos (by omega)]
    rw [determine_controls_flags_false today a sex last ha0 _ hg]
    rw [hf] at hb
    simp only [controls_age_band, controls_juventud]
    norm_num
    intro c hc hn
    rcases (by simpa using hc : c = _ ∨ (sex = some "F" ∧ c = _)) with
      rfl | ⟨_, rfl⟩
    · exact hb
    · simp [never_urgent_types] at hn
  by_cases hE : a ≤ 59
  · -- adultez
    have hg : classify_age_group (some a) = some "adultez" := by
      simp only [classify_age_group]
      rw [if_neg (by omega), if_neg (by omega), if_neg (by omega),
        if_neg (by omega), if_pos (by omega)]
    have hf : band_frequency a = 730 := by
      simp only [band_frequency]
      rw [if_neg (by omega), if_neg (by omega), if_neg (by omega),
        if_neg (by omega), if_pos (by omega)]
    rw [determine_controls_flags_false today a sex last ha0 _ hg]
    rw [hf] at hb
    simp only [controls_age_band, controls_adultez]
    norm_num
    intro c hc hn
    rcases (by simpa using hc : c = _) with rfl
    exact hb
  · -- vejez
    have hg : classify_age_group (some a) = some "vejez" := by
      simp only [classify_age_group]
      rw [if_neg (by omega), if_neg (by omega), if_neg (by omega),
        if_neg (by omega), if_neg (by omega), if_pos (by omega)]
    have hf : band_frequency a = 365 := by
      simp only [band_frequency]
      rw [if_neg (by omega), if_neg (by omega), if_neg (by omega),
        if_neg (by omega), if_neg (by omega)]
    rw [determine_controls_flags_false today a sex last ha0 _ hg]
    rw [hf] at hb
    simp only [controls_age_band, controls_vejez]
    norm_num
    intro c hc hn
    rcases (by simpa using hc : c = _ ∨ c = _ ∨ c = _ ∨ c = _) with
      rfl | rfl | rfl | rfl
    · exact hb
    · exact hb
    · exact hb
    · simp [never_urgent_types] at hn

/-- C4 (amended): for the age-band controls whose urgency carries the band's
overdue flag (every band control except the hardcoded never-urgent ones in
`never_urgent_types`), with no chronic flags set: a null `last_control_date`
gives `is_urgent = true`; a last control exactly `frequency + 1` days ago
gives `true`; exactly `frequency - 1` days ago gives `false`; and exactly
`frequency` days ago gives `false` (strict `>`), where `frequency` is the
band's `frequency_days` (`band_frequency`). -/
theorem age_band_urgency_boundary (today a : Int) (sex : Option String)
    (h1 : 1 ≤ a) :
    (∀ c ∈ determine_required_controls today (some a) sex false false false false
        false false false false false none,
      c.control_type ∉ never_urgent_types → c.is_urgent = true)
    ∧ (∀ c ∈ determine_required_controls today (some a) sex false false false
        false false false false false false
        (some (today - (band_frequency a + 1))),
      c.control_type ∉ never_urgent_types → c.is_urgent = true)
    ∧ (∀ c ∈ determine_required_controls today (some a) sex false false false
        false false false false false false
        (some (today - (band_frequency a - 1))),
      c.control_type ∉ never_urgent_types → c.is_urgent = false)
    ∧ (∀ c ∈ determine_required_controls today (some a) sex false false false
        false false false false false false (some (today - band_frequency a)),
      c.control_type ∉ never_urgent_types → c.is_urgent = false) := by
  refine ⟨band_controls_urgency today a sex none h1 true rfl,
    band_controls_urgency today a sex _ h1 true ?_,
    band_controls_urgency today a sex _ h1 false ?_,
    band_controls_urgency today a sex _ h1 false ?_⟩
  · simp only [is_overdue, decide_eq_true_eq]
    omega
  · simp only [is_overdue, decide_eq_false_iff_not]
    omega
  · simp only [is_overdue, decide_eq_false_iff_not]
    omega

/-- Witness for C4: the infancia visit control of a never-controlled
8-year-old is in the output and is urgent. -/
theorem age_band_urgency_boundary_witness :
    (⟨"control_infancia", "Control de Infancia", true, 365⟩ : Control) ∈
      determine_required_controls 100 (some 8) none false false false false false
        false false false false none
    ∧ Control.is_urgent ⟨"control_infancia", "Control de Infancia", true, 365⟩
        = true :=
  ⟨by decide,
   (age_band_urgency_boundary 100 8 none (by decide)).1
     ⟨"control_infancia", "Control de Infancia", true, 365⟩ (by decide)
     (by decide)⟩

/-- C7: `recommended_algorithm` stays at its `"ausangate"` default unless
the ASCVD percentage strictly exceeds the running maximum at the moment
ASCVD is evaluated; in particular it stays `"ausangate"` when Framingham
and Ausangate produce identical percentages and ASCVD does not strictly
exceed the running maximum. -/
theorem comprehensive_recommended_ausangate (age : Int) (sex race : String)
    (sbp dbp : Option Int) (chol hdl ldl glucose : Option ℚ)
    (sm db hyp : Bool) (bmi : Option ℚ) (meds fam : Bool) :
    (comp_ascvd_exceeds age sex race sbp chol hdl sm db meds = false →
      (calculate_comprehensive_cv_risk age sex sbp dbp chol hdl ldl glucose sm db
          hyp bmi meds race fam).recommended_algorithm = "ausangate")
    ∧ ((comp_framingham age sex sbp chol hdl sm db meds).map
          RiskResult.risk_percentage
        = (comp_ausangate age sex sbp chol hdl glucose sm db bmi fam).map
            RiskResult.risk_percentage →
      comp_ascvd_exceeds age sex race sbp chol hdl sm db meds = false →
      (calculate_comprehensive_cv_risk age sex sbp dbp chol hdl ldl glucose sm db
          hyp bmi meds race fam).recommended_algorithm = "ausangate") := by
  have key : comp_ascvd_exceeds age sex race sbp chol hdl sm db meds = false →
      (calculate_comprehensive_cv_risk age sex sbp dbp chol hdl ldl glucose sm db
          hyp bmi meds race fam).recommended_algorithm = "ausangate" := by
    intro h
    have hs2 : (comp_state2 age sex race sbp chol hdl sm db meds).2.2
        = "ausangate" := by
      unfold comp_state2
      unfold comp_ascvd_exceeds at h
      rcases hA : comp_ascvd age sex race sbp chol hdl sm db meds with _ | r
      · simp [hA]
      · rw [hA] at h
        simp only [decide_eq_false_iff_not] at h
        simp [hA, if_neg h]
    unfold calculate_comprehensive_cv_risk
    rcases hU : comp_ausangate age sex sbp chol hdl glucose sm db bmi fam
      with _ | u
    · simpa [hU] using hs2
    · simp only [hU]
      split <;> simpa using hs2
  exact ⟨key, fun _ h => key h⟩

/-- Witness for C7: a concrete 30-year-old man (SBP 110, cholesterol 240,
HDL 45) makes Framingham and Ausangate both score 3% while ASCVD is not
evaluated (age < 40); the recommended algorithm is `"ausangate"`. -/
theorem comprehensive_recommended_ausangate_witness :
    (calculate_comprehensive_cv_risk 30 "M" (some 110) none (some 240) (some 45)
        none none false false false none false "hispanic" false).recommended_algorithm
      = "ausangate"
    ∧ (comp_framingham 30 "M" (some 110) (some 240) (some 45) false false
        false).map RiskResult.risk_percentage
      = (comp_ausangate 30 "M" (some 110) (some 240) (some 45) none false false
          none false).map RiskResult.risk_percentage := by
  have hmap : (comp_framingham 30 "M" (some 110) (some 240) (some 45) false false
        false).map RiskResult.risk_percentage
      = (comp_ausangate 30 "M" (some 110) (some 240) (some 45) none false false
          none false).map RiskResult.risk_percentage := by
    norm_num [comp_framingham, comp_ausangate, calculate_framingham_risk,
      calculate_ausangate_risk, truthyI, truthyQ, round1, roundHalfEven]
    decide
  exact ⟨(comprehensive_recommended_ausangate 30 "M" "hispanic" (some 110) none
      (some 240) (some 45) none none false false false none false false).2
    hmap (by decide), hmap⟩

end SAGE3280
